import Mathlib

/-!
Verification development for the animation/execution engine of `src/App.tsx`
(the per-frame motion stepper, the pairwise collision resolver, the timed
action sequencer and the playback controller).

Numbers are modelled as arbitrary-precision rationals extended with the IEEE
special values Infinity, -Infinity and NaN (`JSNum`).  Binary-float rounding
and signed zero are not modelled; division by zero, NaN propagation and the
sign convention of the JavaScript `%` operator are.  `Math.sqrt` is modelled
by `ratSqrt`, which is exact at every point at which a theorem below
evaluates it (squares of rationals).  `Math.cos`, `Math.sin` and `Math.PI`
are kept abstract in a `TrigModel` parameter: no claim exercises the one
action kind (`move`) that uses them.  Timers are modelled as explicit
pending-timeout records with absolute due times.
-/

/-- Truncation toward zero of a rational, mirroring how the JavaScript `%`
operator truncates the quotient before forming the remainder. -/
def ratTrunc (q : ℚ) : ℤ := if 0 ≤ q then ⌊q⌋ else ⌈q⌉

/-- JavaScript remainder `a % b` on finite operands with `b` nonzero: the
result has the sign of the dividend `a`. -/
def jsRemQ (a b : ℚ) : ℚ := a - b * (ratTrunc (a / b) : ℚ)

/-- Model of `Math.sqrt` on finite nonnegative arguments.  Exact whenever
the argument is the square of a rational, which covers every concrete
evaluation performed in this file; the rounding of irrational square roots
is not modelled. -/
def ratSqrt (q : ℚ) : ℚ := (Nat.sqrt q.num.natAbs : ℚ) / (Nat.sqrt q.den : ℚ)

/-- JavaScript numbers: finite values as exact rationals, plus the IEEE
special values.  Signed zero and float rounding are not modelled. -/
inductive JSNum where
  | num (q : ℚ)
  | posInf
  | negInf
  | nan
deriving DecidableEq

namespace JSNum

/-- Unary minus. -/
def neg : JSNum → JSNum
  | num q => num (-q)
  | posInf => negInf
  | negInf => posInf
  | nan => nan

/-- Addition, with `Infinity + -Infinity = NaN` and NaN propagation. -/
def add : JSNum → JSNum → JSNum
  | nan, _ => nan
  | _, nan => nan
  | num a, num b => num (a + b)
  | posInf, negInf => nan
  | negInf, posInf => nan
  | posInf, _ => posInf
  | _, posInf => posInf
  | negInf, _ => negInf
  | _, negInf => negInf

/-- Subtraction. -/
def sub : JSNum → JSNum → JSNum
  | nan, _ => nan
  | _, nan => nan
  | num a, num b => num (a - b)
  | posInf, posInf => nan
  | negInf, negInf => nan
  | posInf, _ => posInf
  | _, posInf => negInf
  | negInf, _ => negInf
  | _, negInf => posInf

/-- Multiplication, with `0 * Infinity = NaN` and NaN propagation. -/
def mul : JSNum → JSNum → JSNum
  | nan, _ => nan
  | _, nan => nan
  | num a, num b => num (a * b)
  | num a, posInf => if 0 < a then posInf else if a < 0 then negInf else nan
  | posInf, num a => if 0 < a then posInf else if a < 0 then negInf else nan
  | num a, negInf => if 0 < a then negInf else if a < 0 then posInf else nan
  | negInf, num a => if 0 < a then negInf else if a < 0 then posInf else nan
  | posInf, posInf => posInf
  | posInf, negInf => negInf
  | negInf, posInf => negInf
  | negInf, negInf => posInf

/-- Division: a nonzero finite value divided by zero gives a signed
infinity, `0 / 0 = NaN`, and NaN propagates. -/
def div : JSNum → JSNum → JSNum
  | nan, _ => nan
  | _, nan => nan
  | num a, num b =>
      if b = 0 then (if 0 < a then posInf else if a < 0 then negInf else nan)
      else num (a / b)
  | num _, posInf => num 0
  | num _, negInf => num 0
  | posInf, num b => if 0 ≤ b then posInf else negInf
  | negInf, num b => if 0 ≤ b then negInf else posInf
  | posInf, _ => nan
  | negInf, _ => nan

/-- Strict comparison; any comparison involving NaN is false. -/
def lt : JSNum → JSNum → Bool
  | nan, _ => false
  | _, nan => false
  | num a, num b => decide (a < b)
  | num _, posInf => true
  | num _, negInf => false
  | posInf, _ => false
  | negInf, negInf => false
  | negInf, _ => true

/-- Non-strict comparison; any comparison involving NaN is false. -/
def le : JSNum → JSNum → Bool
  | nan, _ => false
  | _, nan => false
  | num a, num b => decide (a ≤ b)
  | num _, posInf => true
  | num _, negInf => false
  | posInf, posInf => true
  | posInf, _ => false
  | negInf, _ => true

/-- `Math.abs`. -/
def jabs : JSNum → JSNum
  | num a => num |a|
  | posInf => posInf
  | negInf => posInf
  | nan => nan

/-- `Math.max` of two arguments: NaN-absorbing, otherwise the larger. -/
def jmax : JSNum → JSNum → JSNum
  | nan, _ => nan
  | _, nan => nan
  | a, b => if lt a b then b else a

/-- `Math.min` of two arguments: NaN-absorbing, otherwise the smaller. -/
def jmin : JSNum → JSNum → JSNum
  | nan, _ => nan
  | _, nan => nan
  | a, b => if lt a b then a else b

/-- `Math.sqrt`: NaN on negative arguments, via `ratSqrt` on nonnegative
finite ones. -/
def sqrt : JSNum → JSNum
  | num a => if a < 0 then nan else num (ratSqrt a)
  | posInf => posInf
  | negInf => nan
  | nan => nan

/-- The JavaScript `%` operator: NaN when the divisor is zero or either
operand is NaN or the dividend is infinite; a finite dividend is returned
unchanged modulo an infinite divisor. -/
def rem : JSNum → JSNum → JSNum
  | nan, _ => nan
  | _, nan => nan
  | num a, num b => if b = 0 then nan else num (jsRemQ a b)
  | num a, posInf => num a
  | num a, negInf => num a
  | posInf, _ => nan
  | negInf, _ => nan

end JSNum

/-- Embedding of a finite JavaScript number literal. -/
def jq (q : ℚ) : JSNum := JSNum.num q

/-- The closed set of sprite kinds (`Sprite.type` in the source); it affects
only presentation, never physics. -/
inductive SpriteType where
  | cat
  | dog
  | ball
  | human
deriving DecidableEq

/-- The action kinds of the `Animation` interface of the source. -/
inductive ActionType where
  | move
  | turn
  | goto
  | say
  | think
  | moveX
  | moveY
  | size
  | random
deriving DecidableEq

/-- One entry of the legacy per-sprite `animation` array of the `Sprite`
interface (unused by the engine, kept for structural fidelity).  The source
field named `repeat` is spelled `repeatN` here because `repeat` is reserved
in Lean. -/
structure AnimationItem where
  type : ActionType
  value : JSNum
  duration : Option JSNum
  x : Option JSNum
  y : Option JSNum
  repeatN : Option JSNum
deriving DecidableEq

/-- The `Sprite` interface of the source (lines 4-17). -/
structure Sprite where
  id : String
  type : SpriteType
  x : JSNum
  y : JSNum
  direction : JSNum
  saying : String
  thinking : String
  animation : List AnimationItem
  size : JSNum
  velocityX : JSNum
  velocityY : JSNum
  isAnimating : Bool
deriving DecidableEq

/-- The `ActionBlock` interface of the source (lines 28-37); the field named
`repeat` in the source is spelled `repeatN` here. -/
structure ActionBlock where
  id : String
  type : ActionType
  value : JSNum
  duration : Option JSNum
  x : Option JSNum
  y : Option JSNum
  repeatN : Option JSNum
  label : String
deriving DecidableEq

/-- The `actionBlocks` store: sprite id to ordered action queue, in key
insertion order (JavaScript objects preserve the insertion order of string
keys). -/
abbrev ABMap := List (String × List ActionBlock)

/-- Key lookup in the action-queue store. -/
def abLookup (m : ABMap) (k : String) : Option (List ActionBlock) :=
  match m with
  | [] => none
  | (k2, v) :: rest => if k2 = k then some v else abLookup rest k

/-- The spread update of a JavaScript object: an existing key is replaced in
place (its position among the keys is kept), a new key is appended. -/
def abInsert (m : ABMap) (k : String) (v : List ActionBlock) : ABMap :=
  match m with
  | [] => [(k, v)]
  | (k2, v2) :: rest => if k2 = k then (k2, v) :: rest else (k2, v2) :: abInsert rest k v

/-- Overlap test `checkCollision` (source lines 67-73): each sprite is an
axis-aligned square of side `48 * size` centred on its position; overlap
holds when both centre-coordinate gaps are below the half-sum of sides. -/
def checkCollision (s1 s2 : Sprite) : Bool :=
  (((s1.x.sub s2.x).jabs).lt ((((jq 48).mul s1.size).add ((jq 48).mul s2.size)).div (jq 2))) &&
  (((s1.y.sub s2.y).jabs).lt ((((jq 48).mul s1.size).add ((jq 48).mul s2.size)).div (jq 2)))

/-- Centre-to-centre distance of two sprites (source lines 90-92). -/
def centerDist (s t : Sprite) : JSNum :=
  (((t.x.sub s.x).mul (t.x.sub s.x)).add ((t.y.sub s.y).mul (t.y.sub s.y))).sqrt

/-- Minimum separation of two sprites: the half-sum of their square sides
(source line 93). -/
def minSep (s t : Sprite) : JSNum :=
  (((jq 48).mul s.size).add ((jq 48).mul t.size)).div (jq 2)

/-- State threaded through a collision-resolution pass: the sprite list
being mutated in place, the pending `actionBlocks` updater state, and the
saying-clear timeouts scheduled so far (one record per colliding pair,
source lines 107-113). -/
structure CollState where
  sprites : List Sprite
  ab : ABMap
  clears : List (String × String)
deriving DecidableEq

/-- Result of resolving one colliding pair. -/
structure PairRes where
  a : Sprite
  b : Sprite
  ab : ABMap
  clears : List (String × String)

/-- Result of running one sprite against the rest of the list. -/
structure InnerRes where
  a : Sprite
  rest : List Sprite
  ab : ABMap
  clears : List (String × String)

/-- Body of the collision double loop (source lines 78-124) for one
overlapping pair: swap velocities, separate the positions when the
centre distance is below the minimum separation, set the two saying
texts, schedule a saying-clear timeout, and swap the two action queues.
Queue reads use the render-closure value `cab` captured by
`handleCollisions` (line 116-117), while queue writes accumulate on the
updater state `ab` (lines 119-123).  The separation scale factor is
hoisted out of the overlap guard; it is used only under the same guard, so
the value computed is unchanged. -/
def collidePair (cab : ABMap) (ab : ABMap) (clears : List (String × String))
    (si sj : Sprite) : PairRes :=
  let si1 := { si with velocityX := sj.velocityX, velocityY := sj.velocityY }
  let sj1 := { sj with velocityX := si.velocityX, velocityY := si.velocityY }
  let dx := sj1.x.sub si1.x
  let dy := sj1.y.sub si1.y
  let distance := centerDist si1 sj1
  let minDistance := minSep si1 sj1
  let scal := (minDistance.sub distance).div distance
  let si2 :=
    if distance.lt minDistance then
      { si1 with x := si1.x.sub ((dx.mul scal).div (jq 2)),
                 y := si1.y.sub ((dy.mul scal).div (jq 2)) }
    else si1
  let sj2 :=
    if distance.lt minDistance then
      { sj1 with x := sj1.x.add ((dx.mul scal).div (jq 2)),
                 y := sj1.y.add ((dy.mul scal).div (jq 2)) }
    else sj1
  { a := { si2 with saying := "Swapping!" },
    b := { sj2 with saying := "Bouncing!" },
    ab := abInsert (abInsert ab si.id ((abLookup cab sj.id).getD [])) sj.id
            ((abLookup cab si.id).getD []),
    clears := clears ++ [(si.id, sj.id)] }

/-- The inner `j` loop of `handleCollisions`: run sprite `a` (the current
`sprites[i]`) against each later sprite in order, each iteration seeing the
mutations made by the previous ones, exactly as the in-place array writes
of the source do. -/
def collideInner (cab : ABMap) (a : Sprite) (rest : List Sprite) (ab : ABMap)
    (clears : List (String × String)) : InnerRes :=
  match rest with
  | [] => { a := a, rest := [], ab := ab, clears := clears }
  | b :: bs =>
    if checkCollision a b then
      let p := collidePair cab ab clears a b
      let q := collideInner cab p.a bs p.ab p.clears
      { a := q.a, rest := p.b :: q.rest, ab := q.ab, clears := q.clears }
    else
      let q := collideInner cab a bs ab clears
      { a := q.a, rest := b :: q.rest, ab := q.ab, clears := q.clears }

/-- The outer `i` loop of `handleCollisions`, written with a unit-list fuel
(one unit per sprite of the original list, so the loop runs exactly once
per index) because the inner loop returns an updated remainder list of the
same length rather than a structural sublist. -/
def collideOuterAux (cab : ABMap) : List Unit → List Sprite → ABMap →
    List (String × String) → CollState
  | [], sprites, ab, cl => { sprites := sprites, ab := ab, clears := cl }
  | _ :: _, [], ab, cl => { sprites := [], ab := ab, clears := cl }
  | _ :: fs, a :: rest, ab, cl =>
    let q := collideInner cab a rest ab cl
    let r := collideOuterAux cab fs q.rest q.ab q.clears
    { sprites := q.a :: r.sprites, ab := r.ab, clears := r.clears }

/-- `handleCollisions` (source lines 75-128): the pairwise pass over the
sprite list in ascending index order.  `cab` is the `actionBlocks` value
captured by the render closure; the updater state for queue writes starts
from the same snapshot. -/
def handleCollisions (cab : ABMap) (sprites : List Sprite) : CollState :=
  collideOuterAux cab (sprites.map fun _ => ()) sprites cab []

/-- Per-sprite body of the frame callback `animate` (source lines 138-165):
sprites that are not animating are untouched; otherwise integrate position
from velocity and elapsed time, negate a velocity component when the
tentative new coordinate reaches a stage edge, and clamp the stored
position into the stage rectangle. -/
def moveStep (deltaTime stageWidth stageHeight : JSNum) (s : Sprite) : Sprite :=
  if s.isAnimating then
    let newX := s.x.add (s.velocityX.mul deltaTime)
    let newY := s.y.add (s.velocityY.mul deltaTime)
    { s with
      x := (jq 0).jmax (newX.jmin stageWidth),
      y := (jq 0).jmax (newY.jmin stageHeight),
      velocityX := if (newX.le (jq 0)) || (stageWidth.le newX) then s.velocityX.neg
                   else s.velocityX,
      velocityY := if (newY.le (jq 0)) || (stageHeight.le newY) then s.velocityY.neg
                   else s.velocityY }
  else s

/-- One full stepper tick (source lines 138-168): the continuous-motion
update of every sprite followed, in the same frame, by the
collision-resolution pass over the updated list. -/
def tick (cab : ABMap) (deltaTime stageWidth stageHeight : JSNum)
    (sprites : List Sprite) : CollState :=
  handleCollisions cab (sprites.map (moveStep deltaTime stageWidth stageHeight))

/-- Abstract interpretation of `Math.cos`, `Math.sin` and `Math.PI`, used
only by the `move` action.  Universal theorems quantify over it; no
concrete scenario below contains a `move` action, so its values never
matter. -/
structure TrigModel where
  cos : JSNum → JSNum
  sin : JSNum → JSNum
  pi : JSNum

/-- Fixed placeholder interpretation for concrete scenarios (none of which
contains a `move` action). -/
def trigDefault : TrigModel := { cos := fun _ => JSNum.nan, sin := fun _ => JSNum.nan, pi := JSNum.nan }

/-- Effect of one fired sequencer timer on its target sprite: the `switch`
of source lines 215-240 together with the surrounding object update of
lines 242-252 (every firing also sets `isAnimating` to true).  The `goto`
and `think` kinds have no case in the source switch and fall through with
no field change.  `rnd` supplies the two `Math.random()` samples of the
`random` case. -/
def applyAction (trig : TrigModel) (rnd : JSNum × JSNum) (action : ActionBlock)
    (s : Sprite) : Sprite :=
  let s2 :=
    match action.type with
    | ActionType.moveX => { s with velocityX := action.value }
    | ActionType.moveY => { s with velocityY := action.value }
    | ActionType.move =>
        let radians := ((s.direction.sub (jq 90)).mul trig.pi).div (jq 180)
        { s with velocityX := (trig.cos radians).mul action.value,
                 velocityY := (trig.sin radians).mul action.value }
    | ActionType.turn => { s with direction := (s.direction.add action.value).rem (jq 360) }
    | ActionType.size => { s with size := (jq (1/10)).jmax (s.size.add action.value) }
    | ActionType.say => { s with saying := "Hello!" }
    | ActionType.random => { s with x := (rnd.1.mul (jq 400)).add (jq 100),
                                    y := (rnd.2.mul (jq 400)).add (jq 100) }
    | _ => s
  { s2 with isAnimating := true }

/-- A pending `setTimeout`: absolute due time in milliseconds from the
playback trigger, and the sprite-list update its callback performs. -/
structure Timeout where
  due : ℕ
  eff : List Sprite → List Sprite

/-- Callback of one scheduled sequencer action (source lines 204-255): a
functional update of the whole sprite list that mutates only the sprite
whose id matches (and is a no-op when that id no longer exists). -/
def fireOne (trig : TrigModel) (rnd : JSNum × JSNum) (spriteId : String)
    (action : ActionBlock) : List Sprite → List Sprite :=
  fun sprites => sprites.map fun s =>
    if s.id = spriteId then applyAction trig rnd action s else s

/-- Callback of the post-sequence stop timer (source lines 259-265): set
velocity to zero and end the animating state of the matching sprite. -/
def stopEff (spriteId : String) : List Sprite → List Sprite :=
  fun sprites => sprites.map fun s =>
    if s.id = spriteId then
      { s with isAnimating := false, velocityX := jq 0, velocityY := jq 0 }
    else s

/-- Timers scheduled by the sequencer for one sprite entry, starting at
action index `i` (source lines 203-268): the action at index `i` is due at
`i * 1000` ms after the trigger, and after the last action one further
timer is due 1000 ms later.  The source schedules that final timer from
inside the last action callback; since no timer is ever cancelled the
outer timer always fires, so giving the final timer its absolute due time
directly is behaviourally identical.  `rnds i` supplies the
`Math.random()` samples drawn by the firing at index `i`. -/
def seqTimersAux (trig : TrigModel) (rnds : ℕ → JSNum × JSNum) (spriteId : String)
    (i : ℕ) : List ActionBlock → List Timeout
  | [] => []
  | [a] => [{ due := i * 1000, eff := fireOne trig (rnds i) spriteId a },
            { due := i * 1000 + 1000, eff := stopEff spriteId }]
  | a :: b :: rest =>
      { due := i * 1000, eff := fireOne trig (rnds i) spriteId a } ::
        seqTimersAux trig rnds spriteId (i + 1) (b :: rest)

/-- All timers scheduled by one sequencer scheduling pass (source lines
200-271): entries of the action-queue store in key order, each action at
0-based index `i` due at `i * 1000` ms. -/
def seqTimeouts (trig : TrigModel) (rnds : ℕ → JSNum × JSNum) (ab : ABMap) :
    List Timeout :=
  (ab.map fun e => seqTimersAux trig rnds e.1 0 e.2).flatten

/-- Fire every pending timeout due at or before time `T`, in scheduling
order (for a single sprite entry this is also ascending due-time order). -/
def runDue (T : ℕ) (ts : List Timeout) (sprites : List Sprite) : List Sprite :=
  (ts.filter fun t => decide (t.due ≤ T)).foldl (fun ss t => t.eff ss) sprites

/-- Fire every pending timeout due strictly after time `T`, in scheduling
order: the work still outstanding at a stop that happens at time `T`. -/
def runAfter (T : ℕ) (ts : List Timeout) (sprites : List Sprite) : List Sprite :=
  (ts.filter fun t => decide (T < t.due)).foldl (fun ss t => t.eff ss) sprites

/-- Pending timeouts surviving the Playing to Stopped transition.  The
source cancels only the animation-frame handle (effect cleanup, lines
175-179); no `setTimeout` handle is ever stored, and the sequencer effect
(lines 200-271) returns no cleanup, so every pending timeout survives and
will still fire. -/
def cancelOnStop (ts : List Timeout) : List Timeout := ts

/-- The component state of `App` relevant to the engine (source lines
40-44). -/
structure AppState where
  sprites : List Sprite
  selectedSprite : Option String
  actionBlocks : ABMap
  isPlaying : Bool
deriving DecidableEq

/-- `deleteSprite` (source lines 183-188): filter the sprite out of the
collection and clear the selection when it pointed at the deleted id.  No
other state is touched; in particular `actionBlocks` is left as it is. -/
def deleteSprite (targetId : String) (st : AppState) : AppState :=
  { st with
    sprites := st.sprites.filter fun s => s.id != targetId,
    selectedSprite := if st.selectedSprite = some targetId then none
                      else st.selectedSprite }

/-- `resetAll` (source lines 190-198): clear sprites, selection and action
queues and force the stopped state.  Like the stop transition it cancels
only the animation-frame handle; pending timeouts are modelled by
`cancelOnStop`. -/
def resetAll (_st : AppState) : AppState :=
  { sprites := [], selectedSprite := none, actionBlocks := [], isPlaying := false }

/-- A freshly created sprite as `addSprite` builds it (source lines 49-62),
with the two `Math.random()` position samples made explicit arguments. -/
def baseSprite (spriteId : String) (x y : ℚ) : Sprite :=
  { id := spriteId, type := SpriteType.cat, x := jq x, y := jq y,
    direction := jq 0, saying := "", thinking := "", animation := [],
    size := jq 1, velocityX := jq 0, velocityY := jq 0, isAnimating := false }

/-- A sprite in mid-flight: a fresh sprite with the given velocity and the
animating flag set, the state the sequencer leaves a sprite in once any of
its actions has fired. -/
def animSprite (x y vx vy : ℚ) : Sprite :=
  { baseSprite ("m") x y with velocityX := jq vx, velocityY := jq vy,
                              isAnimating := true }

/-- A turn (rotate-by) action block with the given magnitude. -/
def turnBlock (blockId : String) (v : ℚ) : ActionBlock :=
  { id := blockId, type := ActionType.turn, value := jq v, duration := none,
    x := none, y := none, repeatN := none, label := "Turn" }

/-- A change-scale-by action block with the given magnitude. -/
def sizeBlock (v : ℚ) : ActionBlock :=
  { id := "size", type := ActionType.size, value := jq v, duration := none,
    x := none, y := none, repeatN := none, label := "Size" }

/-- Fixed random stream for concrete scenarios (none of which contains a
`random` action). -/
def rndZero : ℕ → JSNum × JSNum := fun _ => (jq 0, jq 0)

/-- Projection of the sprite fields that a collision-resolution pass never
writes: everything except the velocity components, the position and the
saying text. -/
def identityFields (s : Sprite) :
    String × SpriteType × JSNum × String × List AnimationItem × JSNum × Bool :=
  (s.id, s.type, s.direction, s.thinking, s.animation, s.size, s.isAnimating)

/-- The two-sprite overlap scenario of the collision swap check: sprite A
at (100,100) moving right at 50 px/s with queue `[blockA1]`. -/
def spriteA : Sprite :=
  { baseSprite ("A") 100 100 with velocityX := jq 50, isAnimating := true }

/-- Sprite B of the overlap scenario: at (110,100), moving left at 50 px/s,
queue `[blockB1]`. -/
def spriteB : Sprite :=
  { baseSprite ("B") 110 100 with velocityX := jq (-50), isAnimating := true }

/-- The single queued action of sprite A. -/
def blockA1 : ActionBlock := turnBlock ("a1") 90

/-- The single queued action of sprite B. -/
def blockB1 : ActionBlock := turnBlock ("b1") 45

/-- Action-queue store of the overlap scenario. -/
def abC6 : ABMap := [(("A"), [blockA1]), (("B"), [blockB1])]

/-- Expected post-collision sprite A: velocity swapped to B, position
pushed left by 19 px by the separation step, saying set. -/
def spriteA2 : Sprite :=
  { spriteA with velocityX := jq (-50), velocityY := jq 0, x := jq 81,
                 y := jq 100, saying := "Swapping!" }

/-- Expected post-collision sprite B: velocity swapped to A, position
pushed right by 19 px, saying set. -/
def spriteB2 : Sprite :=
  { spriteB with velocityX := jq 50, velocityY := jq 0, x := jq 129,
                 y := jq 100, saying := "Bouncing!" }

/-- The sequencer scenario sprite: fresh, direction 0, id `sq`. -/
def seqSprite : Sprite := baseSprite ("sq") 100 100

/-- The sequencer scenario queue: two rotate-by-90 actions. -/
def seqAB : ABMap := [(("sq"), [turnBlock ("r1") 90, turnBlock ("r2") 90])]

/-- The timers the sequencer schedules for the scenario queue at the
playback trigger. -/
def seqTs : List Timeout := seqTimeouts trigDefault rndZero seqAB

/-- App state used by the deletion scenario: one sprite with one queued
action, currently selected. -/
def stC3 : AppState :=
  { sprites := [baseSprite ("s1") 100 100], selectedSprite := some ("s1"),
    actionBlocks := [(("s1"), [turnBlock ("t1") 90])], isPlaying := false }

@[simp] theorem JSNum.neg_num (a : ℚ) : JSNum.neg (JSNum.num a) = JSNum.num (-a) := rfl

@[simp] theorem JSNum.add_num (a b : ℚ) :
    JSNum.add (JSNum.num a) (JSNum.num b) = JSNum.num (a + b) := rfl

@[simp] theorem JSNum.sub_num (a b : ℚ) :
    JSNum.sub (JSNum.num a) (JSNum.num b) = JSNum.num (a - b) := rfl

@[simp] theorem JSNum.mul_num (a b : ℚ) :
    JSNum.mul (JSNum.num a) (JSNum.num b) = JSNum.num (a * b) := rfl

@[simp] theorem JSNum.div_num (a b : ℚ) :
    JSNum.div (JSNum.num a) (JSNum.num b) =
      if b = 0 then (if 0 < a then JSNum.posInf else if a < 0 then JSNum.negInf else JSNum.nan)
      else JSNum.num (a / b) := rfl

@[simp] theorem JSNum.lt_num (a b : ℚ) :
    JSNum.lt (JSNum.num a) (JSNum.num b) = decide (a < b) := rfl

@[simp] theorem JSNum.le_num (a b : ℚ) :
    JSNum.le (JSNum.num a) (JSNum.num b) = decide (a ≤ b) := rfl

@[simp] theorem JSNum.jabs_num (a : ℚ) : JSNum.jabs (JSNum.num a) = JSNum.num |a| := rfl

@[simp] theorem JSNum.sqrt_num (a : ℚ) :
    JSNum.sqrt (JSNum.num a) = if a < 0 then JSNum.nan else JSNum.num (ratSqrt a) := rfl

@[simp] theorem JSNum.rem_num (a b : ℚ) :
    JSNum.rem (JSNum.num a) (JSNum.num b) =
      if b = 0 then JSNum.nan else JSNum.num (jsRemQ a b) := rfl

@[simp] theorem JSNum.mul_num_posInf (a : ℚ) :
    JSNum.mul (JSNum.num a) JSNum.posInf =
      if 0 < a then JSNum.posInf else if a < 0 then JSNum.negInf else JSNum.nan := rfl

@[simp] theorem JSNum.mul_num_negInf (a : ℚ) :
    JSNum.mul (JSNum.num a) JSNum.negInf =
      if 0 < a then JSNum.negInf else if a < 0 then JSNum.posInf else JSNum.nan := rfl

@[simp] theorem JSNum.div_nan_left (b : JSNum) : JSNum.div JSNum.nan b = JSNum.nan := by
  cases b <;> rfl

@[simp] theorem JSNum.div_num_nan (a : ℚ) :
    JSNum.div (JSNum.num a) JSNum.nan = JSNum.nan := rfl

@[simp] theorem JSNum.sub_num_nan (a : ℚ) :
    JSNum.sub (JSNum.num a) JSNum.nan = JSNum.nan := rfl

@[simp] theorem JSNum.add_num_nan (a : ℚ) :
    JSNum.add (JSNum.num a) JSNum.nan = JSNum.nan := rfl

@[simp] theorem JSNum.jmax_num (a b : ℚ) :
    JSNum.jmax (JSNum.num a) (JSNum.num b) = JSNum.num (max a b) := by
  show (if JSNum.lt (JSNum.num a) (JSNum.num b) then JSNum.num b else JSNum.num a) = _
  by_cases h : a < b
  · simp [JSNum.lt, h, max_eq_right h.le]
  · simp [JSNum.lt, h, max_eq_left (not_lt.mp h)]

@[simp] theorem JSNum.jmin_num (a b : ℚ) :
    JSNum.jmin (JSNum.num a) (JSNum.num b) = JSNum.num (min a b) := by
  show (if JSNum.lt (JSNum.num a) (JSNum.num b) then JSNum.num a else JSNum.num b) = _
  by_cases h : a < b
  · simp [JSNum.lt, h, min_eq_left h.le]
  · simp [JSNum.lt, h, min_eq_right (not_lt.mp h)]

@[simp] theorem jq_def (q : ℚ) : jq q = JSNum.num q := rfl

theorem natSqrt_hundred : Nat.sqrt 100 = 10 := by
  rw [show (100 : ℕ) = 10 ^ 2 by norm_num, Nat.sqrt_eq']

theorem natSqrt_square48 : Nat.sqrt 2304 = 48 := by
  rw [show (2304 : ℕ) = 48 ^ 2 by norm_num, Nat.sqrt_eq']

@[simp] theorem ratSqrt_zero : ratSqrt 0 = 0 := by
  unfold ratSqrt
  norm_num

@[simp] theorem ratSqrt_hundred : ratSqrt 100 = 10 := by
  unfold ratSqrt
  rw [show ((100 : ℚ)).num = 100 from rfl, show ((100 : ℚ)).den = 1 from rfl]
  norm_num [natSqrt_hundred]

@[simp] theorem ratSqrt_square48 : ratSqrt 2304 = 48 := by
  unfold ratSqrt
  rw [show ((2304 : ℚ)).num = 2304 from rfl, show ((2304 : ℚ)).den = 1 from rfl]
  norm_num [natSqrt_square48]

@[simp] theorem jsRemQ_ninety : jsRemQ 90 360 = 90 := by
  norm_num [jsRemQ, ratTrunc]

@[simp] theorem jsRemQ_oneeighty : jsRemQ 180 360 = 180 := by
  norm_num [jsRemQ, ratTrunc]

@[simp] theorem jsRemQ_negninety : jsRemQ (-90) 360 = -90 := by
  norm_num [jsRemQ, ratTrunc]

theorem jsRemQ_bounds (a : ℚ) (h : 0 ≤ a) :
    0 ≤ jsRemQ a 360 ∧ jsRemQ a 360 < 360 := by
  have hq : (0 : ℚ) ≤ a / 360 := by positivity
  have h1 : (⌊a / 360⌋ : ℚ) ≤ a / 360 := Int.floor_le _
  have h2 : a / 360 < ⌊a / 360⌋ + 1 := Int.lt_floor_add_one _
  rw [le_div_iff₀ (by norm_num : (0 : ℚ) < 360)] at h1
  rw [div_lt_iff₀ (by norm_num : (0 : ℚ) < 360)] at h2
  unfold jsRemQ ratTrunc
  rw [if_pos hq]
  constructor <;> linarith

theorem stringAB : (("A" : String) = "B") = False := by simp

theorem stringBA : (("B" : String) = "A") = False := by simp

theorem collidePair_fst_identity (cab ab : ABMap) (cl : List (String × String))
    (a b : Sprite) :
    identityFields (collidePair cab ab cl a b).a = identityFields a := by
  simp only [collidePair, identityFields]
  split <;> rfl

theorem collidePair_snd_identity (cab ab : ABMap) (cl : List (String × String))
    (a b : Sprite) :
    identityFields (collidePair cab ab cl a b).b = identityFields b := by
  simp only [collidePair, identityFields]
  split <;> rfl

theorem collideInner_identity (cab : ABMap) (rest : List Sprite) :
    ∀ (a : Sprite) (ab : ABMap) (cl : List (String × String)),
      identityFields (collideInner cab a rest ab cl).a = identityFields a ∧
      (collideInner cab a rest ab cl).rest.map identityFields =
        rest.map identityFields := by
  induction rest with
  | nil =>
      intro a ab cl
      simp [collideInner]
  | cons b bs ih =>
      intro a ab cl
      by_cases h : checkCollision a b = true
      · simp only [collideInner, h, if_true]
        refine ⟨?_, ?_⟩
        · rw [(ih _ _ _).1, collidePair_fst_identity]
        · simp only [List.map_cons]
          rw [(ih _ _ _).2, collidePair_snd_identity]
      · simp only [collideInner, h, Bool.false_eq_true, if_false]
        refine ⟨(ih _ _ _).1, ?_⟩
        simp only [List.map_cons]
        rw [(ih _ _ _).2]

theorem collideOuterAux_identity (cab : ABMap) (fuel : List Unit) :
    ∀ (sprites : List Sprite) (ab : ABMap) (cl : List (String × String)),
      (collideOuterAux cab fuel sprites ab cl).sprites.map identityFields =
        sprites.map identityFields := by
  induction fuel with
  | nil =>
      intro sprites ab cl
      simp [collideOuterAux]
  | cons u fs ih =>
      intro sprites ab cl
      cases sprites with
      | nil => simp [collideOuterAux]
      | cons a rest =>
          simp only [collideOuterAux, List.map_cons]
          rw [ih, (collideInner_identity cab rest a ab cl).2,
            (collideInner_identity cab rest a ab cl).1]

/-- C1: the claim says the Playing to Stopped transition cancels every
outstanding scheduled unit of work, so that no scheduled mutation lands
after the stop.  The code cancels only the animation-frame handle: the
sequencer setTimeout timers survive (`cancelOnStop` is the identity on the
pending-timeout list) and still fire, so with queue
`[rotate 90, rotate 90]` and a stop at 500 ms the sprite state at
stop-time (direction 90) differs from the state after the originally
scheduled fire times have elapsed (direction 180, animating reset). -/
theorem stop_does_not_cancel_pending_timers :
    cancelOnStop seqTs = seqTs
    ∧ (runDue 500 seqTs [seqSprite]).map Sprite.direction = [jq 90]
    ∧ (runAfter 500 (cancelOnStop seqTs) (runDue 500 seqTs [seqSprite])).map
        Sprite.direction = [jq 180]
    ∧ (runAfter 500 (cancelOnStop seqTs) (runDue 500 seqTs [seqSprite])).map
        Sprite.isAnimating = [false]
    ∧ runDue 500 seqTs [seqSprite] ≠
        runAfter 500 (cancelOnStop seqTs) (runDue 500 seqTs [seqSprite]) := by
  refine ⟨rfl, ?_, ?_, ?_, ?_⟩ <;>
    norm_num [runAfter, runDue, cancelOnStop, seqTs, seqTimeouts, seqAB,
      seqTimersAux, fireOne, stopEff, applyAction, turnBlock, seqSprite,
      baseSprite, List.filter, List.foldl, Sprite.mk.injEq]

/-- C2: the claim says a zero centre-to-centre distance is guarded by a
fixed fallback separation vector, keeping both positions finite.  The code
has no such guard: at identical centres it computes
`scale = (minDistance - 0) / 0 = Infinity`, then `0 * Infinity = NaN`, so
both colliding sprites end the pass with NaN coordinates. -/
theorem collision_zero_distance_yields_nan :
    (handleCollisions [] [baseSprite ("a") 100 100, baseSprite ("b") 100 100]).sprites.map
        (fun s => (s.x, s.y)) =
      [(JSNum.nan, JSNum.nan), (JSNum.nan, JSNum.nan)] := by
  norm_num [handleCollisions, collideOuterAux, collideInner, collidePair,
    checkCollision, centerDist, minSep, baseSprite, abLookup, abInsert]

/-- C3 counterexample: the claim says deleting a sprite also removes its
action queue from the store.  Deleting the only sprite of `stC3` removes
the sprite and clears the selection, but its queue entry is still present
in `actionBlocks`. -/
theorem deleteSprite_keeps_queue_entry :
    (deleteSprite ("s1") stC3).sprites = []
    ∧ (deleteSprite ("s1") stC3).selectedSprite = none
    ∧ abLookup (deleteSprite ("s1") stC3).actionBlocks ("s1") =
        some [turnBlock ("t1") 90] := by
  refine ⟨?_, ?_, ?_⟩ <;> simp [deleteSprite, stC3, abLookup, baseSprite]

/-- C3 amended: deleting a sprite by id removes exactly that sprite from
the collection and clears the selected-sprite reference if it pointed to
the deleted sprite; the action-queue store is left entirely unchanged (the
deleted sprite's queue entry is not removed), so in particular all other
sprites and their queues are untouched. -/
theorem deleteSprite_removes_only_sprite_and_selection (targetId : String)
    (st : AppState) :
    (∀ s : Sprite,
        s ∈ (deleteSprite targetId st).sprites ↔ s ∈ st.sprites ∧ s.id ≠ targetId)
    ∧ (deleteSprite targetId st).selectedSprite =
        (if st.selectedSprite = some targetId then none else st.selectedSprite)
    ∧ (deleteSprite targetId st).actionBlocks = st.actionBlocks := by
  refine ⟨?_, rfl, rfl⟩
  intro s
  simp [deleteSprite, List.mem_filter, bne_iff_ne]

/-- C4 counterexample: the claim says a rotate-by with a negative
magnitude keeps the direction non-negative (here 0 - 90 reduced mod 360
would be 270).  The JavaScript remainder keeps the sign of the dividend,
so the code leaves the sprite at direction -90, outside [0, 360). -/
theorem turn_negative_direction_counterexample :
    (applyAction trigDefault (jq 0, jq 0) (turnBlock ("t") (-90))
        (baseSprite ("s") 100 100)).direction = jq (-90)
    ∧ jq (-90) ≠ jq 270
    ∧ ¬((0 : ℚ) ≤ -90) := by
  refine ⟨?_, ?_, by norm_num⟩
  · norm_num [applyAction, turnBlock, baseSprite]
  · norm_num [jq]

/-- C4 amended: a rotate-by of magnitude `v` from direction `d` stores
`(d + v) % 360` with the JavaScript remainder, which has the sign of
`d + v`: the result lies in [0, 360) whenever `d + v` is non-negative, but
a negative sum yields a negative direction (no non-negative
normalisation is applied). -/
theorem turn_applies_js_remainder (d v : ℚ) (trig : TrigModel)
    (rnd : JSNum × JSNum) :
    (applyAction trig rnd (turnBlock ("t") v)
        { baseSprite ("s") 0 0 with direction := jq d }).direction =
      jq (jsRemQ (d + v) 360)
    ∧ (0 ≤ d + v → 0 ≤ jsRemQ (d + v) 360 ∧ jsRemQ (d + v) 360 < 360) := by
  constructor
  · norm_num [applyAction, turnBlock, baseSprite]
  · exact fun h => jsRemQ_bounds (d + v) h

/-- Witness for the amended C4 theorem at direction 0, magnitude 90. -/
theorem turn_applies_js_remainder_witness :
    (applyAction trigDefault (jq 0, jq 0) (turnBlock ("t") 90)
        { baseSprite ("s") 0 0 with direction := jq 0 }).direction =
      jq (jsRemQ (0 + 90) 360)
    ∧ (0 ≤ jsRemQ (0 + 90) 360 ∧ jsRemQ (0 + 90) 360 < 360) := by
  have h := turn_applies_js_remainder 0 90 trigDefault (jq 0, jq 0)
  exact ⟨h.1, h.2 (by norm_num)⟩

/-- C5 counterexample: the claim says every stepper tick (motion update
followed by the collision pass) keeps every position inside
[0, stageWidth] x [0, stageHeight].  Two resting overlapping sprites at
x = 0 and x = 10 are pushed to x = -19 and x = 29 by the separation step
of the collision pass of a single tick on a 600 x 600 stage: the stored
x-coordinate -19 is outside the stage. -/
theorem tick_separation_escapes_bounds :
    (tick [] (jq 1) (jq 600) (jq 600)
        [baseSprite ("p") 0 300, baseSprite ("q") 10 300]).sprites.map Sprite.x =
      [jq (-19), jq 29]
    ∧ ¬((0 : ℚ) ≤ -19) := by
  refine ⟨?_, by norm_num⟩
  norm_num [tick, moveStep, handleCollisions, collideOuterAux, collideInner,
    collidePair, checkCollision, centerDist, minSep, baseSprite, abLookup,
    abInsert]

/-- C5 amended: the motion-update phase of a tick does keep every
animating sprite with finite state inside the stage rectangle (its stored
coordinates are clamped into [0, stageWidth] x [0, stageHeight] whenever
the stage dimensions are non-negative); the bound can then be violated by
the collision-separation phase of the same tick, which moves positions
without clamping. -/
theorem motion_phase_stays_in_bounds (qx qy qvx qvy qd qw qh : ℚ)
    (hw : 0 ≤ qw) (hh : 0 ≤ qh) :
    ∃ rx ry : ℚ,
      (moveStep (jq qd) (jq qw) (jq qh) (animSprite qx qy qvx qvy)).x = jq rx
      ∧ (moveStep (jq qd) (jq qw) (jq qh) (animSprite qx qy qvx qvy)).y = jq ry
      ∧ 0 ≤ rx ∧ rx ≤ qw ∧ 0 ≤ ry ∧ ry ≤ qh := by
  refine ⟨max 0 (min (qx + qvx * qd) qw), max 0 (min (qy + qvy * qd) qh),
    ?_, ?_, le_max_left 0 _, max_le hw (min_le_right _ _),
    le_max_left 0 _, max_le hh (min_le_right _ _)⟩
  · simp [moveStep, animSprite, baseSprite]
  · simp [moveStep, animSprite, baseSprite]

/-- Witness for the amended C5 theorem: a sprite at x = 590 moving right
at 100 px/s on a 600 x 600 stage over a 0.2 s tick stays inside the
stage after the motion phase. -/
theorem motion_phase_stays_in_bounds_witness :
    ∃ rx ry : ℚ,
      (moveStep (jq (1/5)) (jq 600) (jq 600) (animSprite 590 300 100 0)).x = jq rx
      ∧ (moveStep (jq (1/5)) (jq 600) (jq 600) (animSprite 590 300 100 0)).y = jq ry
      ∧ 0 ≤ rx ∧ rx ≤ 600 ∧ 0 ≤ ry ∧ ry ≤ 600 :=
  motion_phase_stays_in_bounds 590 300 100 0 (1/5) 600 600 (by norm_num)
    (by norm_num)

/-- C6: the collision swap scenario.  Overlapping sprites A (velocity
(50,0), queue `[blockA1]`) and B (velocity (-50,0), queue `[blockB1]`) at
x-distance 10: one resolution pass swaps the velocities and the two
queues, separates the pair to x = 81 and x = 129, the pair no longer
overlaps, and the post-separation centre distance (48) is at least the
minimum separation (48, the half-sum of sides with side 48 x scale). -/
theorem collision_swap_scenario :
    (handleCollisions abC6 [spriteA, spriteB]).sprites = [spriteA2, spriteB2]
    ∧ abLookup (handleCollisions abC6 [spriteA, spriteB]).ab ("A") = some [blockB1]
    ∧ abLookup (handleCollisions abC6 [spriteA, spriteB]).ab ("B") = some [blockA1]
    ∧ checkCollision spriteA2 spriteB2 = false
    ∧ JSNum.le (minSep spriteA2 spriteB2) (centerDist spriteA2 spriteB2) = true := by
  refine ⟨?_, ?_, ?_, ?_, ?_⟩ <;>
    norm_num [handleCollisions, collideOuterAux, collideInner, collidePair,
      checkCollision, centerDist, minSep, baseSprite, spriteA, spriteB,
      spriteA2, spriteB2, abC6, abLookup, abInsert, stringAB, stringBA,
      Sprite.mk.injEq]

/-- C7: for every sequence of change-scale-by actions the scale stays at
or above the floor 1/10 (preserved from any start at or above the floor,
as every new sprite is, having scale 1), and applying decrease-by-1/10
eleven times from scale 1 yields exactly 1/10, not zero or a negative
value. -/
theorem scale_floor_invariant :
    (∀ (trig : TrigModel) (rnd : JSNum × JSNum) (vals : List ℚ) (s : Sprite)
        (q : ℚ), s.size = jq q → 1/10 ≤ q →
        ∃ r : ℚ,
          (vals.foldl (fun sp v => applyAction trig rnd (sizeBlock v) sp) s).size =
            jq r
          ∧ 1/10 ≤ r)
    ∧ (([-(1/10), -(1/10), -(1/10), -(1/10), -(1/10), -(1/10), -(1/10),
          -(1/10), -(1/10), -(1/10), -(1/10)] : List ℚ).foldl
        (fun sp v => applyAction trigDefault (jq 0, jq 0) (sizeBlock v) sp)
        (baseSprite ("c") 100 100)).size = jq (1/10) := by
  constructor
  · intro trig rnd vals
    induction vals with
    | nil =>
        intro s q hs hq
        exact ⟨q, hs, hq⟩
    | cons v vs ih =>
        intro s q hs hq
        rw [List.foldl_cons]
        refine ih _ (max (1/10) (q + v)) ?_ (le_max_left _ _)
        have hstep : (applyAction trig rnd (sizeBlock v) s).size =
            JSNum.jmax (jq (1/10)) (s.size.add (jq v)) := rfl
        rw [hstep, hs]
        simp
  · norm_num [applyAction, sizeBlock, baseSprite, List.foldl]

/-- Witness for the C7 invariant at a concrete sprite (scale 1) and a
single scale change of +1/2. -/
theorem scale_floor_invariant_witness :
    ∃ r : ℚ,
      (([(1/2 : ℚ)]).foldl
          (fun sp v => applyAction trigDefault (jq 0, jq 0) (sizeBlock v) sp)
          (baseSprite ("w") 0 0)).size = jq r
      ∧ 1/10 ≤ r :=
  scale_floor_invariant.1 trigDefault (jq 0, jq 0) [1/2] (baseSprite ("w") 0 0) 1
    rfl (by norm_num)

/-- C8 counterexample: the claim places the first firing of queue
`[rotate 90, rotate 90]` at about t+1 and the post-sequence stop at about
t+3.  The code schedules the action at index i at i x 1000 ms, so at
1100 ms the direction is already 180 (not 90), and at 2100 ms the sprite
has already been set to rest (animating false), which the claimed
timeline places only at about t+3. -/
theorem sequencer_timeline_counterexample :
    (runDue 1100 seqTs [seqSprite]).map Sprite.direction = [jq 180]
    ∧ jq 180 ≠ jq 90
    ∧ (runDue 2100 seqTs [seqSprite]).map Sprite.isAnimating = [false] := by
  refine ⟨?_, by norm_num [jq], ?_⟩ <;>
    norm_num [runDue, seqTs, seqTimeouts, seqAB, seqTimersAux, fireOne,
      stopEff, applyAction, turnBlock, seqSprite, baseSprite, List.filter,
      List.foldl]

/-- C8 amended: the queued action at 0-based index i fires i x 1 second
after the trigger and sets the animating flag, so for queue
`[rotate 90, rotate 90]` the direction becomes 90 at about t (the index-0
timer fires with delay 0), becomes 180 at about t+1, and one second after
the last action, at about t+2, a further timer sets the velocity to zero
and the animating flag to false. -/
theorem sequencer_fires_at_index_times :
    seqTs.map Timeout.due = [0, 1000, 2000]
    ∧ (runDue 0 seqTs [seqSprite]).map Sprite.direction = [jq 90]
    ∧ (runDue 0 seqTs [seqSprite]).map Sprite.isAnimating = [true]
    ∧ (runDue 999 seqTs [seqSprite]).map Sprite.direction = [jq 90]
    ∧ (runDue 1000 seqTs [seqSprite]).map Sprite.direction = [jq 180]
    ∧ (runDue 1999 seqTs [seqSprite]).map Sprite.isAnimating = [true]
    ∧ (runDue 2000 seqTs [seqSprite]).map
        (fun s => (s.direction, s.velocityX, s.velocityY, s.isAnimating)) =
        [(jq 180, jq 0, jq 0, false)] := by
  refine ⟨?_, ?_, ?_, ?_, ?_, ?_, ?_⟩ <;>
    norm_num [runDue, seqTs, seqTimeouts, seqAB, seqTimersAux, fireOne,
      stopEff, applyAction, turnBlock, seqSprite, baseSprite, List.filter,
      List.foldl]

/-- C9: on a stepper tick whose tentative new coordinate
`old + velocity x delta` reaches or crosses a stage edge, the stored
velocity component of an animating sprite is negated on that same tick
(and kept otherwise), and the stored coordinate is clamped into the stage
interval on that same tick; the two axes behave identically and
independently. -/
theorem wall_bounce_negates_and_clamps (qx qy qvx qvy qd qw qh : ℚ) :
    ((qx + qvx * qd ≤ 0 ∨ qw ≤ qx + qvx * qd) →
        (moveStep (jq qd) (jq qw) (jq qh) (animSprite qx qy qvx qvy)).velocityX =
          jq (-qvx))
    ∧ (¬(qx + qvx * qd ≤ 0 ∨ qw ≤ qx + qvx * qd) →
        (moveStep (jq qd) (jq qw) (jq qh) (animSprite qx qy qvx qvy)).velocityX =
          jq qvx)
    ∧ (moveStep (jq qd) (jq qw) (jq qh) (animSprite qx qy qvx qvy)).x =
        jq (max 0 (min (qx + qvx * qd) qw))
    ∧ ((qy + qvy * qd ≤ 0 ∨ qh ≤ qy + qvy * qd) →
        (moveStep (jq qd) (jq qw) (jq qh) (animSprite qx qy qvx qvy)).velocityY =
          jq (-qvy))
    ∧ (¬(qy + qvy * qd ≤ 0 ∨ qh ≤ qy + qvy * qd) →
        (moveStep (jq qd) (jq qw) (jq qh) (animSprite qx qy qvx qvy)).velocityY =
          jq qvy)
    ∧ (moveStep (jq qd) (jq qw) (jq qh) (animSprite qx qy qvx qvy)).y =
        jq (max 0 (min (qy + qvy * qd) qh)) := by
  refine ⟨?_, ?_, ?_, ?_, ?_, ?_⟩
  · rintro (h1 | h2)
    · simp [moveStep, animSprite, baseSprite, h1]
    · simp [moveStep, animSprite, baseSprite, h2]
  · intro h
    push_neg at h
    simp [moveStep, animSprite, baseSprite, h.1.not_le, h.2.not_le]
  · simp [moveStep, animSprite, baseSprite]
  · rintro (h1 | h2)
    · simp [moveStep, animSprite, baseSprite, h1]
    · simp [moveStep, animSprite, baseSprite, h2]
  · intro h
    push_neg at h
    simp [moveStep, animSprite, baseSprite, h.1.not_le, h.2.not_le]
  · simp [moveStep, animSprite, baseSprite]

/-- Witness for C9: a sprite at x = 590 moving right at 100 px/s over a
0.2 s tick crosses the right edge of a 600-wide stage, ends the tick with
x-velocity -100 and x clamped to 600. -/
theorem wall_bounce_negates_and_clamps_witness :
    (moveStep (jq (1/5)) (jq 600) (jq 600) (animSprite 590 300 100 0)).velocityX =
      jq (-100)
    ∧ (moveStep (jq (1/5)) (jq 600) (jq 600) (animSprite 590 300 100 0)).x =
        jq 600 := by
  have h := wall_bounce_negates_and_clamps 590 300 100 0 (1/5) 600 600
  refine ⟨?_, ?_⟩
  · have hv := h.1 (Or.inr (by norm_num))
    simpa using hv
  · have hx := h.2.2.1
    rw [hx]
    norm_num

/-- C10: a full collision-resolution pass never changes any sprite's id,
kind, direction, thinking text, legacy animation list, size, or
animating flag, for every input sprite list and every action-queue
snapshot: only the velocity components, the position, the saying text and
the action-queue map can be modified by it. -/
theorem collisions_preserve_identity_fields (cab : ABMap) (sprites : List Sprite) :
    (handleCollisions cab sprites).sprites.map identityFields =
      sprites.map identityFields := by
  unfold handleCollisions
  exact collideOuterAux_identity cab _ sprites cab []
